import Mathlib

/-!
Verification development for the deployment orchestration pipeline
(`build_docker` in `src/docker.rs`) and the Dockerfile template generator
(`src/dockerfile_templates.rs`).

The engine, the database and the build subprocess are external
collaborators; we model one deployment call as a function of a `World`
that fixes every external response, and we record every engine-visible
operation in an ordered effect trace.  Fallible Rust expressions become
`Except String`, Rust panics (`unwrap` on `None`) become the `panicked`
outcome.
-/

/-- A JSON value, as produced by the `environs` column of the `projects`
table (serde_json::Value). -/
inductive JValue where
  | jnull
  | jbool (b : Bool)
  | jnum (n : Int)
  | jstr (s : String)
  | jarr (elems : List JValue)
  | jobj (fields : List (String × JValue))

/-- `serde_json::Value::as_str`: `Some` exactly on JSON strings. -/
def JValue.as_str : JValue → Option String
  | .jstr s => some s
  | _ => none

/-- `serde_json::Value::as_object`: `Some` exactly on JSON objects
(the object modelled as an ordered association list). -/
def JValue.as_object : JValue → Option (List (String × JValue))
  | .jobj fields => some fields
  | _ => none

/-- One record of the bollard build stream (`BuildInfo`): an optional
`stream` chunk and an optional `error` field. -/
structure BuildInfo where
  stream : Option String
  error : Option String
deriving DecidableEq

/-- The per-container entry of a bollard network inspection
(`bollard::service::NetworkContainer`), restricted to the two fields
`build_docker` reads. -/
structure NetworkContainer where
  ipv4_address : Option String
  ipv6_address : Option String
deriving DecidableEq

/-- A network summary returned by `list_networks`; `build_docker` only
reads its (optional) `id`. -/
structure NetworkSummary where
  id : Option String
deriving DecidableEq

/-- A container summary returned by `list_containers`; `build_docker`
only reads its (optional) `id`. -/
structure ContainerSummary where
  id : Option String
deriving DecidableEq

/-- The subset of `bollard::image::BuildImageOptions` fields that
`build_docker` sets (docker.rs lines 203-211); the remaining resource
fields keep bollard's `Default` value `None`. -/
structure BuildImageOptions where
  dockerfile : String
  t : String
  rm : Bool
  pull : Bool
  cpuperiod : Option Int
  cpuquota : Option Int
  memory : Option Int := none
  memswap : Option Int := none
deriving DecidableEq

/-- The subset of `bollard::service::HostConfig` that `build_docker`
sets (docker.rs lines 378-389). -/
structure HostConfig where
  restart_policy : Option String
  memory : Option Int
  memory_swap : Option Int
  cpu_quota : Option Int
  cpu_period : Option Int
deriving DecidableEq

/-- The container creation `Config` (docker.rs lines 367-391). -/
structure ContainerConfig where
  image : Option String
  env : Option (List String)
  labels : List (String × String)
  host_config : Option HostConfig
deriving DecidableEq

/-- Every engine-visible operation one `build_docker` call can perform,
in source order; the trace of a run lists them in execution order.
`writeTempFile`/`removeTempFile` exist so that statements about
temporary-file materialization are expressible: the source never
performs either (the generated Dockerfile goes into an in-memory tar). -/
inductive Effect where
  | listImages (reference : String)
  | tagImage (repo : String) (tag : String)
  | removeImage (name : String)
  | queryEnvirons (owner : String) (project : String)
  | spawnBuild (args : List String)
  | buildImageApi (opts : BuildImageOptions)
  | writeTempFile (path : String)
  | removeTempFile (path : String)
  | listContainers (nameFilter : String)
  | stopContainer (name : String)
  | removeContainer (id : String)
  | listNetworks (name : String)
  | createNetwork (name : String)
  | createContainer (name : String) (cfg : ContainerConfig)
  | connectNetwork (network : String) (container : String)
  | startContainer (name : String)
  | inspectNetwork (id : String)
  | disconnectNetwork (network : String) (container : String)
deriving DecidableEq

/-- Outcome of a pipeline phase: success, a returned error (`Err` in
Rust, message kept), or a Rust panic. -/
inductive StepResult (α : Type) where
  | ok (a : α)
  | failed (msg : String)
  | panicked
deriving DecidableEq

/-- Sequencing of phases: a failure or panic short-circuits, traces
concatenate (mirrors `?` propagation in the source). -/
def StepResult.andThen {α β : Type} :
    StepResult α × List Effect → (α → StepResult β × List Effect) →
    StepResult β × List Effect
  | (.ok a, t), f => let r := f a; (r.1, t ++ r.2)
  | (.failed m, t), _ => (.failed m, t)
  | (.panicked, t), _ => (.panicked, t)

/-- All external responses one `build_docker` call can observe, fixed up
front: each engine API call, the database queries, the filesystem probe
for a tenant Dockerfile, and the build subprocess / build stream. -/
structure World where
  connectRes : Except String Unit
  /-- first `list_images` (reference filter `name:latest`): does a match exist -/
  listImages1 : Except String Bool
  tagImageRes : Except String Unit
  removeImageLatestRes : Except String Unit
  queryEnvirons1 : Except String JValue
  /-- `Path::new(container_src).join("Dockerfile").exists()` -/
  dockerfileExists : Bool
  spawnRes : Except String Unit
  waitRes : Except String Unit
  /-- `output.status.success()` of the build subprocess -/
  buildStatusSuccess : Bool
  /-- captured stderr of the build subprocess -/
  buildStderr : String
  /-- in-memory tar assembly outcome (header/append/finish) -/
  tarRes : Except String Unit
  /-- the bollard build stream: each `try_next` yields an item or an error -/
  buildStream : List (Except String BuildInfo)
  /-- second `list_images`: does a match exist after the build -/
  listImages2 : Except String Bool
  listContainersRes : Except String (List ContainerSummary)
  stopRes : Except String Unit
  removeContainerRes : Except String Unit
  removeImageOldRes : Except String Unit
  listNetworks1 : Except String (List NetworkSummary)
  createNetworkRes : Except String Unit
  listNetworks2 : Except String (List NetworkSummary)
  queryEnvirons2 : Except String JValue
  /-- `create_container` response: the new container's id -/
  createContainerRes : Except String String
  connectNetworkRes : Except String Unit
  startRes : Except String Unit
  /-- network inspection: the optional containers map (id → entry) -/
  inspectRes : Except String (Option (List (String × NetworkContainer)))
  /-- best-effort bridge disconnect (its outcome is ignored by the source) -/
  disconnectRes : Except String Unit
  /-- the DOMAIN environment variable, if set -/
  domainVar : Option String

/-- docker.rs line 37. -/
def image_name (container_name : String) : String := container_name ++ ":latest"

/-- docker.rs line 38. -/
def old_image_name (container_name : String) : String := container_name ++ ":old"

/-- docker.rs line 39: the fixed shared network. -/
def network_name : String := "pemasak"

/-- get_env.rs `domain()`: the DOMAIN variable with default "localhost". -/
def get_env_domain (domainVar : Option String) : String := domainVar.getD "localhost"

/-- docker.rs lines 47-81: list images matching `<container_name>:latest`;
if one exists, tag it `<container_name>:old` and remove the `latest`
reference; otherwise do nothing further. -/
def prepare_images (container_name : String) (w : World) :
    StepResult Unit × List Effect :=
  match w.listImages1 with
  | .error e => (.failed e, [.listImages (image_name container_name)])
  | .ok imageExists =>
    if imageExists then
      match w.tagImageRes with
      | .error e =>
        (.failed e,
         [.listImages (image_name container_name), .tagImage container_name "old"])
      | .ok _ =>
        match w.removeImageLatestRes with
        | .error e =>
          (.failed e,
           [.listImages (image_name container_name), .tagImage container_name "old",
            .removeImage (image_name container_name)])
        | .ok _ =>
          (.ok (),
           [.listImages (image_name container_name), .tagImage container_name "old",
            .removeImage (image_name container_name)])
    else
      (.ok (), [.listImages (image_name container_name)])

/-- docker.rs lines 84-96 and 338-350: the `SELECT environs` query for
the (owner, project) pair. -/
def fetch_environs (owner project_name : String) (res : Except String JValue) :
    StepResult JValue × List Effect :=
  match res with
  | .error e => (.failed e, [.queryEnvirons owner project_name])
  | .ok v => (.ok v, [.queryEnvirons owner project_name])

/-- docker.rs line 115: `Path::new(container_src).join("Dockerfile")`. -/
def dockerfile_path (container_src : String) : String :=
  container_src ++ "/Dockerfile"

/-- docker.rs lines 123-129: the `--build-arg key=value` pairs — one pair
per entry of the environment object, a non-string value coerced to `""`
by `value.as_str().unwrap_or("")`; a non-object blob yields no pairs. -/
def build_arg_pairs (environs : JValue) : List String :=
  match environs.as_object with
  | some env_map =>
    env_map.foldl
      (fun args kv => args ++ ["--build-arg", kv.1 ++ "=" ++ (kv.2.as_str.getD "")]) []
  | none => []

/-- docker.rs lines 107-131: the full argument list of the
`docker build` subprocess on the custom-Dockerfile path. -/
def custom_build_args (container_name container_src : String) (environs : JValue) :
    List String :=
  ["build", "--cpu-period=100000", "--cpu-quota=50000", "-t",
   image_name container_name, "-f", dockerfile_path container_src]
  ++ build_arg_pairs environs ++ [container_src]

/-- docker.rs lines 104-151: spawn the build subprocess, wait, and on a
non-success exit status return the captured stderr as the error; on
success the captured stderr is the build log. -/
def run_custom_build (container_name container_src : String) (environs : JValue)
    (w : World) : StepResult String × List Effect :=
  let args := custom_build_args container_name container_src environs
  match w.spawnRes with
  | .error e => (.failed e, [.spawnBuild args])
  | .ok _ =>
    match w.waitRes with
    | .error e => (.failed e, [.spawnBuild args])
    | .ok _ =>
      if w.buildStatusSuccess then (.ok w.buildStderr, [.spawnBuild args])
      else (.failed w.buildStderr, [.spawnBuild args])

/-- docker.rs lines 156-163: environment entries flattened to
`key=value`, a non-string value coerced to `""`, a non-object blob to
the empty list. -/
def environment_strings_lenient (environs : JValue) : List String :=
  match environs.as_object with
  | some env_map => env_map.map (fun kv => kv.1 ++ "=" ++ (kv.2.as_str.getD ""))
  | none => []

/-- docker.rs lines 203-211: the bollard build options of the
generated-Dockerfile path; only CPU limits are set, the memory fields
keep their `Default` of `None`. -/
def generated_build_options (container_name : String) : BuildImageOptions :=
  { dockerfile := "Dockerfile"
    t := image_name container_name
    rm := true
    pull := true
    cpuperiod := some 100000
    cpuquota := some 50000 }

/-- docker.rs lines 217-233: drain the build stream, appending each
`stream` chunk to the log; a stream error or an item with an `error`
field aborts with `Docker build failed: …` (the accumulated log is
dropped); an exhausted stream returns the accumulated log. -/
def run_build_stream : List (Except String BuildInfo) → String → StepResult String
  | [], build_log => .ok build_log
  | .error e :: _, _ => .failed ("Docker build failed: " ++ e)
  | .ok info :: rest, build_log =>
    let build_log := match info.stream with
      | some s => build_log ++ s
      | none => build_log
    match info.error with
    | some e => .failed ("Docker build failed: " ++ e)
    | none => run_build_stream rest build_log

/-- docker.rs lines 100-235: the build step — custom-Dockerfile path
(subprocess) when a `Dockerfile` exists in the source tree, otherwise
the generated path (template → in-memory tar → bollard build stream).
On success the returned string is the captured build log. -/
def run_build (container_name container_src : String) (environs : JValue)
    (w : World) : StepResult String × List Effect :=
  if w.dockerfileExists then
    run_custom_build container_name container_src environs w
  else
    match w.tarRes with
    | .error e => (.failed e, [])
    | .ok _ =>
      (run_build_stream w.buildStream "",
       [.buildImageApi (generated_build_options container_name)])

/-- docker.rs lines 237-250: re-list images for `<container_name>:latest`
after the build; "No image found" if the list is empty. -/
def post_build_check (container_name : String) (w : World) :
    StepResult Unit × List Effect :=
  match w.listImages2 with
  | .error e => (.failed e, [.listImages (image_name container_name)])
  | .ok imageExists =>
    if imageExists then (.ok (), [.listImages (image_name container_name)])
    else (.failed "No image found", [.listImages (image_name container_name)])

/-- docker.rs lines 252-292: list containers named exactly
`container_name`; when one exists, stop it, remove it (by the listed
id — `unwrap` on a missing id is a panic), then remove the
`<container_name>:old` image, each failure propagating. -/
def replace_container (container_name : String) (w : World) :
    StepResult Unit × List Effect :=
  let nameFilter := "^" ++ container_name ++ "$"
  match w.listContainersRes with
  | .error e => (.failed e, [.listContainers nameFilter])
  | .ok containers =>
    if containers.isEmpty then (.ok (), [.listContainers nameFilter])
    else
      match w.stopRes with
      | .error e =>
        (.failed e, [.listContainers nameFilter, .stopContainer container_name])
      | .ok _ =>
        match containers.head? with
        | none =>
          (.panicked, [.listContainers nameFilter, .stopContainer container_name])
        | some c =>
          match c.id with
          | none =>
            (.panicked, [.listContainers nameFilter, .stopContainer container_name])
          | some cid =>
            match w.removeContainerRes with
            | .error e =>
              (.failed e,
               [.listContainers nameFilter, .stopContainer container_name,
                .removeContainer cid])
            | .ok _ =>
              match w.removeImageOldRes with
              | .error e =>
                (.failed e,
                 [.listContainers nameFilter, .stopContainer container_name,
                  .removeContainer cid, .removeImage (old_image_name container_name)])
              | .ok _ =>
                (.ok (),
                 [.listContainers nameFilter, .stopContainer container_name,
                  .removeContainer cid, .removeImage (old_image_name container_name)])

/-- docker.rs lines 294-333: list networks named `pemasak`; take the
first, else create the network and re-list ("No network found after
make one???" when still absent). -/
def ensure_network (w : World) : StepResult NetworkSummary × List Effect :=
  match w.listNetworks1 with
  | .error e => (.failed e, [.listNetworks network_name])
  | .ok nets =>
    match nets.head? with
    | some n => (.ok n, [.listNetworks network_name])
    | none =>
      match w.createNetworkRes with
      | .error e => (.failed e, [.listNetworks network_name, .createNetwork network_name])
      | .ok _ =>
        match w.listNetworks2 with
        | .error e =>
          (.failed e,
           [.listNetworks network_name, .createNetwork network_name,
            .listNetworks network_name])
        | .ok nets2 =>
          match nets2.head? with
          | some n =>
            (.ok n,
             [.listNetworks network_name, .createNetwork network_name,
              .listNetworks network_name])
          | none =>
            (.failed "No network found after make one???",
             [.listNetworks network_name, .createNetwork network_name,
              .listNetworks network_name])

/-- docker.rs lines 352-364: environment entries flattened to
`key=value` by `value.as_str().unwrap()` — a non-string value panics;
a non-object blob is the "Non object value passed as environment
variable" error. -/
def environment_strings_strict (container_name : String) (environs : JValue) :
    StepResult (List String) :=
  match environs.as_object with
  | some env_map =>
    match env_map.mapM (fun kv => kv.2.as_str.map (fun s => kv.1 ++ "=" ++ s)) with
    | some strings => .ok strings
    | none => .panicked
  | none =>
    .failed ("Non object value passed as environment variable " ++ container_name)

/-- docker.rs lines 370-377: the Traefik routing labels. -/
def traefik_labels (container_name domain : String) : List (String × String) :=
  [("traefik.enable", "true"),
   ("traefik.http.routers." ++ container_name ++ ".rule",
    "Host(`" ++ container_name ++ "." ++ domain ++ "`)"),
   ("traefik.http.routers." ++ container_name ++ ".entrypoints", "websecure"),
   ("traefik.http.routers." ++ container_name ++ ".tls.certresolver", "letsencrypt"),
   ("traefik.http.services." ++ container_name ++ ".loadbalancer.server.port", "80")]

/-- docker.rs lines 378-389: the created container's host configuration
(restart on failure, 256MiB memory, 320MiB memory+swap, half a CPU). -/
def container_host_config : HostConfig :=
  { restart_policy := some "on-failure"
    memory := some (256 * 1024 * 1024)
    memory_swap := some (320 * 1024 * 1024)
    cpu_quota := some 50000
    cpu_period := some 100000 }

/-- docker.rs lines 367-391: the container creation config. -/
def container_config (container_name domain : String)
    (environment_strings : List String) : ContainerConfig :=
  { image := some (image_name container_name)
    env := some environment_strings
    labels := traefik_labels container_name domain
    host_config := some container_host_config }

/-- Rust `ip.split('/').next()`: `split` always yields at least the text
before the first separator, so this is `Some` of the prefix of `s`
before the first `/` (all of `s` when it has none). -/
def split_first (s : String) : Option String :=
  some (String.mk (s.data.takeWhile (fun c => c != '/')))

/-- docker.rs lines 465-472: prefer a non-empty IPv6 address, else a
non-empty IPv4 address, and keep only the text before any `/`. -/
def resolve_ip (ipv6_address ipv4_address : Option String) : Option String :=
  ((ipv6_address.filter (fun ip => !ip.isEmpty)).or
      (ipv4_address.filter (fun ip => !ip.isEmpty))).bind
    (fun ip => split_first ip)

/-- docker.rs lines 447-452: `containers.unwrap_or_default().get(&res.id)`. -/
def lookup_network_container
    (containers : Option (List (String × NetworkContainer))) (cid : String) :
    Option NetworkContainer :=
  (containers.getD []).lookup cid

/-- The outcome of the post-start address resolution. -/
inductive AddressOutcome where
  | panicked
  | addrError (msg : String)
  | ok (ip : String)
deriving DecidableEq

/-- docker.rs lines 447-472: the `unwrap` on the containers-map lookup
panics when the entry is absent; otherwise resolve the entry's
addresses, "No ip address found for container …" when neither family
yields a usable value. -/
def resolve_address (container_name : String)
    (containers : Option (List (String × NetworkContainer))) (cid : String) :
    AddressOutcome :=
  match lookup_network_container containers cid with
  | none => .panicked
  | some entry =>
    match resolve_ip entry.ipv6_address entry.ipv4_address with
    | some ip => .ok ip
    | none =>
      .addrError ("No ip address found for container " ++ container_name)

/-- The deployment descriptor (docker.rs lines 23-27). -/
structure DockerContainer where
  ip : String
  port : Int
  build_log : String
deriving DecidableEq

/-- docker.rs lines 352-494: flatten the environment strictly, create
the container, connect it to the shared network, start it, inspect the
network (`network.id.unwrap()` panics on a missing id), resolve the
address, then best-effort-disconnect from the default bridge (outcome
ignored). Returns the resolved ip. -/
def create_and_start (container_name domain : String) (environs2 : JValue)
    (net : NetworkSummary) (w : World) : StepResult String × List Effect :=
  match environment_strings_strict container_name environs2 with
  | .failed e => (.failed e, [])
  | .panicked => (.panicked, [])
  | .ok env_strings =>
    let cfg := container_config container_name domain env_strings
    match w.createContainerRes with
    | .error e => (.failed e, [.createContainer container_name cfg])
    | .ok cid =>
      match w.connectNetworkRes with
      | .error e =>
        (.failed e,
         [.createContainer container_name cfg,
          .connectNetwork network_name container_name])
      | .ok _ =>
        match w.startRes with
        | .error e =>
          (.failed e,
           [.createContainer container_name cfg,
            .connectNetwork network_name container_name,
            .startContainer container_name])
        | .ok _ =>
          match net.id with
          | none =>
            (.panicked,
             [.createContainer container_name cfg,
              .connectNetwork network_name container_name,
              .startContainer container_name])
          | some nid =>
            match w.inspectRes with
            | .error e =>
              (.failed e,
               [.createContainer container_name cfg,
                .connectNetwork network_name container_name,
                .startContainer container_name, .inspectNetwork nid])
            | .ok containersOpt =>
              match resolve_address container_name containersOpt cid with
              | .panicked =>
                (.panicked,
                 [.createContainer container_name cfg,
                  .connectNetwork network_name container_name,
                  .startContainer container_name, .inspectNetwork nid])
              | .addrError m =>
                (.failed m,
                 [.createContainer container_name cfg,
                  .connectNetwork network_name container_name,
                  .startContainer container_name, .inspectNetwork nid])
              | .ok ip =>
                let _ := w.disconnectRes
                (.ok ip,
                 [.createContainer container_name cfg,
                  .connectNetwork network_name container_name,
                  .startContainer container_name, .inspectNetwork nid,
                  .disconnectNetwork "bridge" container_name])

/-- docker.rs lines 30-495: one deployment call against a fixed world,
returning the outcome and the ordered trace of engine-visible
operations. -/
def build_docker (owner project_name container_name container_src : String)
    (w : World) : StepResult DockerContainer × List Effect :=
  match w.connectRes with
  | .error e => (.failed e, [])
  | .ok _ =>
    StepResult.andThen (prepare_images container_name w) (fun _ =>
    StepResult.andThen (fetch_environs owner project_name w.queryEnvirons1) (fun environs1 =>
    StepResult.andThen (run_build container_name container_src environs1 w) (fun build_log =>
    StepResult.andThen (post_build_check container_name w) (fun _ =>
    StepResult.andThen (replace_container container_name w) (fun _ =>
    StepResult.andThen (ensure_network w) (fun net =>
    StepResult.andThen (fetch_environs owner project_name w.queryEnvirons2) (fun environs2 =>
    StepResult.andThen
        (create_and_start container_name (get_env_domain w.domainVar) environs2 net w)
        (fun ip =>
      (.ok { ip := ip, port := 80, build_log := build_log }, [])))))))))

namespace DjangoDockerfile

/-- dockerfile_templates.rs lines 18-42: the fixed multi-stage template
(builder stage, slim runtime stage), byte for byte. -/
def base_template : String :=
  "\n# Multi-stage build for smaller image\nFROM python:3.11-alpine AS builder\n\nWORKDIR /app\n\n# Install build dependencies\nRUN apk add --no-cache gcc musl-dev\n\n# Install Python packages\nCOPY requirements.txt .\nRUN pip install --no-cache-dir -r requirements.txt\n\n# Runtime stage\nFROM python:3.11-alpine AS runtime\n\nWORKDIR /app\n\n# Copy Python packages from builder\nCOPY --from=builder /usr/local/lib/python3.11/site-packages /usr/local/lib/python3.11/site-packages\nCOPY --from=builder /usr/local/bin /usr/local/bin\n\n# Copy app\nCOPY . .\n"

/-- dockerfile_templates.rs line 46: the comment line preceding the ENV
block (emitted only when there is at least one entry). -/
def env_section_header : String := "\n# Environment variables\n"

/-- dockerfile_templates.rs lines 52-61: the fixed production entrypoint
(EXPOSE 80, best-effort migrate, gunicorn bound to port 80), byte for
byte. -/
def production_footer : String :=
  "\n# Production setup\nEXPOSE 80\n\n# Django production server\nCMD [\"sh\", \"-c\", \"\\\n    python manage.py migrate --noinput 2>/dev/null || true; \\\n    WSGI_MODULE=$(python -c \\\"import glob; files = glob.glob('*/wsgi.py'); print(files[0].split('/')[0] if files else 'wsgi')\\\"); \\\n    gunicorn --bind 0.0.0.0:80 --workers 2 $WSGI_MODULE.wsgi:application\"]\n"

/-- dockerfile_templates.rs lines 17-64: `DjangoDockerfile::generate`,
with the builder's `environment_vars` vector as the argument (the
`new`/`with_environment` builder only sets that field): the template,
then — when non-empty — the ENV block with one `ENV entry` line per
entry, then the production footer. -/
def generate (environment_vars : List String) : String :=
  let dockerfile := base_template
  let dockerfile :=
    if !environment_vars.isEmpty then
      environment_vars.foldl
        (fun acc env_var => acc ++ ("ENV " ++ env_var ++ "\n"))
        (dockerfile ++ env_section_header)
    else dockerfile
  dockerfile ++ production_footer

end DjangoDockerfile

/-- A baseline world in which every external call succeeds: no previous
image or container, empty environment object, a tenant Dockerfile
present, the shared network already existing, the created container
reported at IPv4 10.0.0.5/24 on the shared network. -/
def all_ok_world : World :=
  { connectRes := .ok ()
    listImages1 := .ok false
    tagImageRes := .ok ()
    removeImageLatestRes := .ok ()
    queryEnvirons1 := .ok (.jobj [])
    dockerfileExists := true
    spawnRes := .ok ()
    waitRes := .ok ()
    buildStatusSuccess := true
    buildStderr := "step log"
    tarRes := .ok ()
    buildStream := []
    listImages2 := .ok true
    listContainersRes := .ok []
    stopRes := .ok ()
    removeContainerRes := .ok ()
    removeImageOldRes := .ok ()
    listNetworks1 := .ok [{ id := some "netid" }]
    createNetworkRes := .ok ()
    listNetworks2 := .ok []
    queryEnvirons2 := .ok (.jobj [])
    createContainerRes := .ok "cid123"
    connectNetworkRes := .ok ()
    startRes := .ok ()
    inspectRes := .ok (some
      [("cid123", { ipv4_address := some "10.0.0.5/24", ipv6_address := none })])
    disconnectRes := .ok ()
    domainVar := none }

/-- The engine operations of the pipeline stages that follow the build
step (container lifecycle, network, address resolution). -/
def Effect.touchesLaterStage : Effect → Bool
  | .listContainers _ => true
  | .stopContainer _ => true
  | .removeContainer _ => true
  | .listNetworks _ => true
  | .createNetwork _ => true
  | .createContainer _ _ => true
  | .connectNetwork _ _ => true
  | .startContainer _ => true
  | .inspectNetwork _ => true
  | .disconnectNetwork _ _ => true
  | _ => false

/-- Temporary-file materialization operations (never performed by the
source: the generated Dockerfile lives in an in-memory tar archive). -/
def Effect.isTempFile : Effect → Bool
  | .writeTempFile _ => true
  | .removeTempFile _ => true
  | _ => false

/-- Container-creation operations. -/
def Effect.isCreateContainer : Effect → Bool
  | .createContainer _ _ => true
  | _ => false

/-- An environment object holding a non-string JSON value. -/
def nonstring_environs : JValue := .jobj [("DEBUG", .jbool true)]

/-- The baseline world with the custom-Dockerfile build failing
(non-success exit status), stderr captured. -/
def w_build_fail_custom : World :=
  { all_ok_world with buildStatusSuccess := false, buildStderr := "error: boom" }

/-- The baseline world on the generated path with a build stream that
reports progress and then an error record. -/
def w_build_fail_generated : World :=
  { all_ok_world with
      dockerfileExists := false
      buildStream :=
        [.ok { stream := some "step one\n", error := none },
         .ok { stream := none, error := some "boom" }] }

/-- The baseline world with a previous `latest` image present. -/
def w_existing_image : World := { all_ok_world with listImages1 := .ok true }

/-- The baseline world with a previous container present and the
`old`-image removal failing. -/
def w_old_remove_fails : World :=
  { all_ok_world with
      listContainersRes := .ok [{ id := some "prevcid" }]
      removeImageOldRes := .error "remove old failed" }

/-- The baseline world whose stored environment blob is no JSON object. -/
def w_nonobject : World :=
  { all_ok_world with queryEnvirons1 := .ok (.jnum 5), queryEnvirons2 := .ok (.jnum 5) }

/-- The baseline world whose environment object holds a non-string value. -/
def w_nonstring_env : World :=
  { all_ok_world with
      queryEnvirons1 := .ok nonstring_environs
      queryEnvirons2 := .ok nonstring_environs }

/-- The baseline world on the generated path with a successful build
stream. -/
def w_generated_ok : World :=
  { all_ok_world with
      dockerfileExists := false
      buildStream := [.ok { stream := some "built fine\n", error := none }] }

/-- The baseline world whose post-start network inspection reports a
containers map without the new container's id. -/
def w_missing_entry : World :=
  { all_ok_world with inspectRes := .ok (some []) }

/-! ### Helper lemmas about phase sequencing and phase traces -/

theorem StepResult.andThen_eq_ok {α β : Type} {x : StepResult α × List Effect}
    (a : α) (h : x.1 = .ok a) (f : α → StepResult β × List Effect) :
    StepResult.andThen x f = ((f a).1, x.2 ++ (f a).2) := by
  obtain ⟨r, t⟩ := x
  cases r <;> simp_all [StepResult.andThen]

theorem StepResult.andThen_eq_failed {α β : Type} {x : StepResult α × List Effect}
    (m : String) (h : x.1 = .failed m) (f : α → StepResult β × List Effect) :
    StepResult.andThen x f = (.failed m, x.2) := by
  obtain ⟨r, t⟩ := x
  cases r <;> simp_all [StepResult.andThen]

theorem mem_andThen {α β : Type} {x : StepResult α × List Effect}
    {f : α → StepResult β × List Effect} {e : Effect}
    (h : e ∈ (StepResult.andThen x f).2) :
    e ∈ x.2 ∨ ∃ a, x.1 = .ok a ∧ e ∈ (f a).2 := by
  obtain ⟨r, t⟩ := x
  cases r with
  | ok a =>
    simp only [StepResult.andThen, List.mem_append] at h
    rcases h with h | h
    · exact Or.inl h
    · exact Or.inr ⟨a, rfl, h⟩
  | failed m => exact Or.inl h
  | panicked => exact Or.inl h

theorem mem_prepare_images_trace {cn : String} {w : World} {e : Effect}
    (h : e ∈ (prepare_images cn w).2) :
    e = .listImages (image_name cn) ∨ e = .tagImage cn "old"
      ∨ e = .removeImage (image_name cn) := by
  unfold prepare_images at h
  split at h <;> (try split at h) <;> (try split at h) <;> (try split at h) <;>
    simp at h <;> tauto

theorem mem_fetch_environs_trace {owner project : String} {r : Except String JValue}
    {e : Effect} (h : e ∈ (fetch_environs owner project r).2) :
    e = .queryEnvirons owner project := by
  unfold fetch_environs at h
  split at h <;> simp at h <;> tauto

theorem mem_run_build_trace {cn csrc : String} {v : JValue} {w : World} {e : Effect}
    (h : e ∈ (run_build cn csrc v w).2) :
    (∃ args, e = .spawnBuild args) ∨ ∃ o, e = .buildImageApi o := by
  unfold run_build run_custom_build at h
  split at h <;> (try split at h) <;> (try split at h) <;> (try split at h) <;> aesop

theorem mem_post_build_check_trace {cn : String} {w : World} {e : Effect}
    (h : e ∈ (post_build_check cn w).2) : e = .listImages (image_name cn) := by
  unfold post_build_check at h
  split at h <;> (try split at h) <;> simp at h <;> tauto

theorem mem_replace_container_trace {cn : String} {w : World} {e : Effect}
    (h : e ∈ (replace_container cn w).2) :
    e = .listContainers ("^" ++ cn ++ "$") ∨ e = .stopContainer cn
      ∨ (∃ i, e = .removeContainer i) ∨ e = .removeImage (old_image_name cn) := by
  unfold replace_container at h
  split at h <;> (try split at h) <;> (try split at h) <;> (try split at h) <;>
    (try split at h) <;> (try split at h) <;> aesop

theorem mem_ensure_network_trace {w : World} {e : Effect}
    (h : e ∈ (ensure_network w).2) :
    e = .listNetworks network_name ∨ e = .createNetwork network_name := by
  unfold ensure_network at h
  split at h <;> (try split at h) <;> (try split at h) <;> (try split at h) <;>
    (try split at h) <;> simp at h <;> tauto

theorem mem_create_and_start_trace {cn dom : String} {v : JValue}
    {net : NetworkSummary} {w : World} {e : Effect}
    (h : e ∈ (create_and_start cn dom v net w).2) :
    (∃ cfg, e = .createContainer cn cfg) ∨ e = .connectNetwork network_name cn
      ∨ e = .startContainer cn ∨ (∃ i, e = .inspectNetwork i)
      ∨ e = .disconnectNetwork "bridge" cn := by
  unfold create_and_start at h
  split at h <;> (try split at h) <;> (try split at h) <;> (try split at h) <;>
    (try split at h) <;> (try split at h) <;> (try split at h) <;> aesop

theorem prepare_images_ok {cn : String} {w : World} {b : Bool}
    (hli : w.listImages1 = .ok b) (htag : w.tagImageRes = .ok ())
    (hrem : w.removeImageLatestRes = .ok ()) :
    (prepare_images cn w).1 = .ok () := by
  unfold prepare_images
  rw [hli]
  cases b
  · rfl
  · simp [htag, hrem]

/-- When the build step fails, the whole call short-circuits: the result
is the build failure and the trace stops at the build step. -/
theorem build_docker_build_failed_shape (owner project cn csrc : String) (w : World)
    (b : Bool) (v : JValue) (m : String)
    (hconn : w.connectRes = .ok ())
    (hli : w.listImages1 = .ok b) (htag : w.tagImageRes = .ok ())
    (hrem : w.removeImageLatestRes = .ok ())
    (hq : w.queryEnvirons1 = .ok v)
    (hbuild : (run_build cn csrc v w).1 = .failed m) :
    build_docker owner project cn csrc w =
      (.failed m,
       (prepare_images cn w).2 ++
         ([.queryEnvirons owner project] ++ (run_build cn csrc v w).2)) := by
  unfold build_docker
  rw [hconn]
  rw [StepResult.andThen_eq_ok () (prepare_images_ok hli htag hrem)]
  have hf : fetch_environs owner project w.queryEnvirons1
      = (.ok v, [.queryEnvirons owner project]) := by
    rw [hq]; rfl
  rw [hf]
  rw [StepResult.andThen_eq_ok v rfl]
  rw [StepResult.andThen_eq_failed m hbuild]

/-- C1 (amended): in a deployment call that reaches the build step and
whose build step fails, `build_docker` returns the failure and no later
pipeline step runs — the trace holds no container, network or address
operation; on the custom-Dockerfile path the error carries the captured
stderr build log (on the generated path it carries the engine's error
record instead of the accumulated log, see the counterexample). -/
theorem build_failure_halts_pipeline (owner project cn csrc : String) (w : World)
    (b : Bool) (v : JValue) (m : String)
    (hconn : w.connectRes = .ok ())
    (hli : w.listImages1 = .ok b) (htag : w.tagImageRes = .ok ())
    (hrem : w.removeImageLatestRes = .ok ())
    (hq : w.queryEnvirons1 = .ok v)
    (hbuild : (run_build cn csrc v w).1 = .failed m) :
    (build_docker owner project cn csrc w).1 = .failed m
    ∧ (build_docker owner project cn csrc w).2.all
        (fun e => !e.touchesLaterStage) = true
    ∧ (w.dockerfileExists = true → w.spawnRes = .ok () → w.waitRes = .ok () →
        w.buildStatusSuccess = false → m = w.buildStderr) := by
  have hshape := build_docker_build_failed_shape owner project cn csrc w b v m
    hconn hli htag hrem hq hbuild
  refine ⟨by rw [hshape], ?_, ?_⟩
  · rw [hshape]
    rw [List.all_eq_true]
    intro e he
    simp only [List.mem_append, List.mem_singleton] at he
    rcases he with he | he | he
    · rcases mem_prepare_images_trace he with h | h | h <;> subst h <;> rfl
    · subst he; rfl
    · rcases mem_run_build_trace he with ⟨args, h⟩ | ⟨o, h⟩ <;> subst h <;> rfl
  · intro hd hs hw hst
    unfold run_build run_custom_build at hbuild
    rw [hd] at hbuild
    simp [hs, hw, hst] at hbuild
    exact hbuild.symm

/-- C1 witness: a concrete custom-path world whose build subprocess
exits unsuccessfully with stderr "error: boom". -/
theorem build_failure_halts_pipeline_witness :
    (build_docker "o" "p" "c" "s" w_build_fail_custom).1 = .failed "error: boom"
    ∧ (build_docker "o" "p" "c" "s" w_build_fail_custom).2.all
        (fun e => !e.touchesLaterStage) = true
    ∧ (w_build_fail_custom.dockerfileExists = true →
        w_build_fail_custom.spawnRes = .ok () → w_build_fail_custom.waitRes = .ok () →
        w_build_fail_custom.buildStatusSuccess = false →
        "error: boom" = w_build_fail_custom.buildStderr) :=
  build_failure_halts_pipeline "o" "p" "c" "s" w_build_fail_custom false (.jobj [])
    "error: boom" rfl rfl rfl rfl rfl rfl

/-- C1 counterexample: on the generated path, a stream that logs
"step one" and then reports the error record "boom" makes the call fail
with only the error record — the captured build log ("step one") is not
part of the returned error, refuting "returns an error carrying the
captured build log" for that path. -/
theorem generated_build_error_discards_captured_log :
    (build_docker "o" "p" "c" "s" w_build_fail_generated).1
        = .failed "Docker build failed: boom"
    ∧ run_build_stream w_build_fail_generated.buildStream ""
        = .failed "Docker build failed: boom"
    ∧ ¬ ("step one\n".data <:+: ("Docker build failed: boom").data) := by
  refine ⟨by decide, by decide, by decide⟩

theorem prepare_images_trace_eq {cn : String} {w : World} {b : Bool}
    (hli : w.listImages1 = .ok b) (htag : w.tagImageRes = .ok ())
    (hrem : w.removeImageLatestRes = .ok ()) :
    (prepare_images cn w).2 =
      .listImages (image_name cn) ::
        (if b then [.tagImage cn "old", .removeImage (image_name cn)] else []) := by
  unfold prepare_images
  rw [hli]
  cases b
  · rfl
  · simp [htag, hrem]

/-- C2: before the build step, `build_docker` lists images for
`<container_name>:latest`; when one exists it tags it
`<container_name>:old` and then removes the `latest` reference, and when
none exists the next operation is already the environment query — the
preparation performs no image operation. -/
theorem prepare_replacement_retags_then_deletes (owner project cn csrc : String)
    (w : World) (b : Bool)
    (hconn : w.connectRes = .ok ())
    (hli : w.listImages1 = .ok b)
    (htag : w.tagImageRes = .ok ()) (hrem : w.removeImageLatestRes = .ok ()) :
    ∃ rest, (build_docker owner project cn csrc w).2 =
      .listImages (image_name cn) ::
        ((if b then [.tagImage cn "old", .removeImage (image_name cn)] else []) ++
         (.queryEnvirons owner project :: rest)) := by
  unfold build_docker
  rw [hconn]
  rw [StepResult.andThen_eq_ok () (prepare_images_ok hli htag hrem)]
  rw [prepare_images_trace_eq hli htag hrem]
  rcases hq : w.queryEnvirons1 with eq | v
  · rw [StepResult.andThen_eq_failed
      (x := fetch_environs owner project (Except.error eq)) eq rfl]
    exact ⟨[], by simp [fetch_environs]⟩
  · rw [StepResult.andThen_eq_ok
      (x := fetch_environs owner project (Except.ok v)) v rfl]
    simp only [fetch_environs, List.cons_append, List.nil_append, List.append_assoc]
    exact ⟨_, rfl⟩

/-- C2 witness: a concrete world with a previous `latest` image. -/
theorem prepare_replacement_retags_then_deletes_witness :
    ∃ rest, (build_docker "o" "p" "c" "s" w_existing_image).2 =
      .listImages (image_name "c") ::
        ((if true then [.tagImage "c" "old", .removeImage (image_name "c")] else []) ++
         (.queryEnvirons "o" "p" :: rest)) :=
  prepare_replacement_retags_then_deletes "o" "p" "c" "s" w_existing_image true
    rfl rfl rfl rfl

/-- C3 (amended): after the build, the `<container_name>:old` image is
removed only as part of replacing a previous container — when no
container with that name exists, no old-image removal is attempted at
all — and a failure of that removal propagates (`?`) and aborts the
deployment: it is fatal, not a logged warning. -/
theorem old_image_removal_needs_container_and_is_fatal (cn : String) (w : World)
    (cs : List ContainerSummary) (hlc : w.listContainersRes = .ok cs) :
    (cs = [] → replace_container cn w = (.ok (), [.listContainers ("^" ++ cn ++ "$")]))
    ∧ (∀ c cid, cs.head? = some c → c.id = some cid → w.stopRes = .ok () →
        w.removeContainerRes = .ok () →
        ((w.removeImageOldRes = .ok () →
           replace_container cn w =
             (.ok (), [.listContainers ("^" ++ cn ++ "$"), .stopContainer cn,
                       .removeContainer cid, .removeImage (old_image_name cn)]))
         ∧ (∀ e, w.removeImageOldRes = .error e →
             (replace_container cn w).1 = .failed e))) := by
  constructor
  · intro hnil
    subst hnil
    unfold replace_container
    rw [hlc]
    rfl
  · intro c cid hhd hid hstop hrc
    cases cs with
    | nil => simp at hhd
    | cons c0 cs' =>
      simp only [List.head?_cons, Option.some.injEq] at hhd
      subst hhd
      constructor
      · intro hro
        unfold replace_container
        rw [hlc]
        simp [hstop, hid, hrc, hro]
      · intro e hro
        unfold replace_container
        rw [hlc]
        simp [hstop, hid, hrc, hro]

/-- C3 witness: a concrete world with one previous container. -/
theorem old_image_removal_needs_container_and_is_fatal_witness :
    (([({ id := some "prevcid" } : ContainerSummary)] : List ContainerSummary) = [] →
       replace_container "c" w_old_remove_fails =
         (.ok (), [.listContainers ("^" ++ "c" ++ "$")]))
    ∧ (∀ c cid,
        ([({ id := some "prevcid" } : ContainerSummary)] :
            List ContainerSummary).head? = some c →
        c.id = some cid → w_old_remove_fails.stopRes = .ok () →
        w_old_remove_fails.removeContainerRes = .ok () →
        ((w_old_remove_fails.removeImageOldRes = .ok () →
           replace_container "c" w_old_remove_fails =
             (.ok (), [.listContainers ("^" ++ "c" ++ "$"), .stopContainer "c",
                       .removeContainer cid, .removeImage (old_image_name "c")]))
         ∧ (∀ e, w_old_remove_fails.removeImageOldRes = .error e →
             (replace_container "c" w_old_remove_fails).1 = .failed e))) :=
  old_image_removal_needs_container_and_is_fatal "c" w_old_remove_fails
    [{ id := some "prevcid" }] rfl

/-- C3 counterexample: with a previous container present and the engine
refusing to delete `c:old`, the whole deployment fails with that very
error although the build succeeded — the deletion failure is fatal, not
a swallowed warning; and in a run with no previous container the `c:old`
image is never deleted at all. -/
theorem old_image_removal_failure_fails_deployment :
    (build_docker "o" "p" "c" "s" w_old_remove_fails).1 = .failed "remove old failed"
    ∧ (run_build "c" "s" (.jobj []) w_old_remove_fails).1 = .ok "step log"
    ∧ .removeImage (old_image_name "c") ∈
        (build_docker "o" "p" "c" "s" w_old_remove_fails).2
    ∧ .removeImage (old_image_name "c") ∉
        (build_docker "o" "p" "c" "s" all_ok_world).2 := by
  refine ⟨by decide, by decide, by decide, by decide⟩

/-- C4: address resolution prefers a non-empty IPv6 address, falls back
to a non-empty IPv4 address, rejects present-but-empty addresses, strips
any CIDR suffix (the result is a `/`-free prefix of the chosen address;
"10.0.0.5/24" resolves to exactly "10.0.0.5", a present non-empty IPv6
"fd00::2/64" wins over any IPv4), and when neither family yields a
usable value the outcome is the fatal address error. -/
theorem address_resolution_prefers_ipv6_strips_cidr :
    (∀ s v4, s ≠ "" → resolve_ip (some s) v4 = split_first s)
    ∧ (∀ s, s ≠ "" → resolve_ip none (some s) = split_first s
        ∧ resolve_ip (some "") (some s) = split_first s)
    ∧ (resolve_ip none none = none ∧ resolve_ip (some "") none = none
        ∧ resolve_ip none (some "") = none ∧ resolve_ip (some "") (some "") = none)
    ∧ (∀ s r, split_first s = some r → r.data <+: s.data ∧ ∀ c ∈ r.data, c ≠ '/')
    ∧ resolve_ip none (some "10.0.0.5/24") = some "10.0.0.5"
    ∧ resolve_ip (some "fd00::2/64") (some "10.0.0.5/24") = some "fd00::2"
    ∧ (∀ cn co cid entry, lookup_network_container co cid = some entry →
        resolve_ip entry.ipv6_address entry.ipv4_address = none →
        resolve_address cn co cid =
          .addrError ("No ip address found for container " ++ cn)) := by
  refine ⟨?_, ?_, ⟨by decide, by decide, by decide, by decide⟩, ?_,
    by decide, by decide, ?_⟩
  · intro s v4 h
    unfold resolve_ip
    have hne : s.isEmpty = false := by
      rw [Bool.eq_false_iff]
      simpa [String.isEmpty_iff] using h
    simp [Option.filter, hne, Option.or, split_first]
  · intro s h
    have hne : s.isEmpty = false := by
      rw [Bool.eq_false_iff]
      simpa [String.isEmpty_iff] using h
    have h0 : ("" : String).isEmpty = true := rfl
    constructor
    · unfold resolve_ip
      simp [Option.filter, hne, Option.or, split_first]
    · unfold resolve_ip
      simp [Option.filter, hne, h0, Option.or, split_first]
  · intro s r h
    unfold split_first at h
    cases h
    constructor
    · exact List.takeWhile_prefix _
    · intro c hc
      have := List.mem_takeWhile_imp hc
      simpa using this
  · intro cn co cid entry hlk hre
    unfold resolve_address
    rw [hlk]
    simp [hre]

/-- C5 (amended): both build paths carry exactly the CPU constraints
(quota 50000 over period 100000) — the subprocess flags in positions 1-2,
the bollard options' cpuperiod/cpuquota — but no memory constraint
(the options' memory fields stay `None`, no `--memory` flag is passed),
while the created container's host configuration carries the CPU
constraints and the memory limits 256MiB / 320MiB with swap. -/
theorem cpu_limits_on_build_full_limits_on_container :
    (∀ cn csrc envs, "--cpu-period=100000" ∈ custom_build_args cn csrc envs
        ∧ "--cpu-quota=50000" ∈ custom_build_args cn csrc envs
        ∧ (custom_build_args cn csrc envs).take 3
            = ["build", "--cpu-period=100000", "--cpu-quota=50000"])
    ∧ (∀ cn, (generated_build_options cn).cpuperiod = some 100000
        ∧ (generated_build_options cn).cpuquota = some 50000
        ∧ (generated_build_options cn).memory = none
        ∧ (generated_build_options cn).memswap = none)
    ∧ container_host_config.cpu_quota = some 50000
    ∧ container_host_config.cpu_period = some 100000
    ∧ container_host_config.memory = some (256 * 1024 * 1024)
    ∧ container_host_config.memory_swap = some (320 * 1024 * 1024)
    ∧ (custom_build_args "c" "src" (.jobj [])).all
        (fun a => !(List.isPrefixOf "--memory".data a.data)) = true := by
  refine ⟨?_, fun cn => ⟨rfl, rfl, rfl, rfl⟩, rfl, rfl, by decide, by decide, by decide⟩
  intro cn csrc envs
  refine ⟨?_, ?_, ?_⟩ <;> simp [custom_build_args]

/-- C5 counterexample: the generated build options carry no memory or
memory+swap limit while the container's host configuration carries
256MiB / 320MiB, and the subprocess flags of a custom build hold no
`--memory` flag either — the limits are not applied identically to the
build step and the created container. -/
theorem build_and_container_memory_limits_differ :
    (generated_build_options "c").memory = none
    ∧ container_host_config.memory = some 268435456
    ∧ container_host_config.memory_swap = some 335544320
    ∧ ¬((generated_build_options "c").memory = container_host_config.memory)
    ∧ ¬((generated_build_options "c").memswap = container_host_config.memory_swap)
    ∧ (custom_build_args "c" "src" (.jobj [])).all
        (fun a => !(List.isPrefixOf "--memory".data a.data)) = true := by
  refine ⟨rfl, by decide, by decide, by decide, by decide, by decide⟩

theorem create_and_start_nonobject_empty_trace {cn dom : String} {v : JValue}
    {net : NetworkSummary} {w : World} (hv : v.as_object = none) :
    create_and_start cn dom v net w =
      (.failed ("Non object value passed as environment variable " ++ cn), []) := by
  unfold create_and_start environment_strings_strict
  rw [hv]

theorem nonobject_no_create_container (owner project cn csrc : String) (w : World)
    (v : JValue) (hv : v.as_object = none) (hq2 : w.queryEnvirons2 = .ok v) :
    (build_docker owner project cn csrc w).2.all
      (fun e => !e.isCreateContainer) = true := by
  rw [List.all_eq_true]
  intro e he
  suffices h : e.isCreateContainer = false by simp [h]
  unfold build_docker at he
  split at he
  · simp at he
  · rcases mem_andThen he with h1 | ⟨a, _, h1⟩
    · rcases mem_prepare_images_trace h1 with h | h | h <;> subst h <;> rfl
    · rcases mem_andThen h1 with h2 | ⟨v1, _, h2⟩
      · have h := mem_fetch_environs_trace h2; subst h; rfl
      · rcases mem_andThen h2 with h3 | ⟨bl, _, h3⟩
        · rcases mem_run_build_trace h3 with ⟨args, h⟩ | ⟨o, h⟩ <;> subst h <;> rfl
        · rcases mem_andThen h3 with h4 | ⟨u, _, h4⟩
          · have h := mem_post_build_check_trace h4; subst h; rfl
          · rcases mem_andThen h4 with h5 | ⟨u2, _, h5⟩
            · rcases mem_replace_container_trace h5 with h | h | ⟨i, h⟩ | h <;>
                subst h <;> rfl
            · rcases mem_andThen h5 with h6 | ⟨net, _, h6⟩
              · rcases mem_ensure_network_trace h6 with h | h <;> subst h <;> rfl
              · rcases mem_andThen h6 with h7 | ⟨v2, hfe, h7⟩
                · have h := mem_fetch_environs_trace h7; subst h; rfl
                · have hv2 : v2 = v := by
                    rw [hq2] at hfe
                    simpa [fetch_environs] using hfe.symm
                  subst hv2
                  rcases mem_andThen h7 with h8 | ⟨ip, _, h8⟩
                  · rw [create_and_start_nonobject_empty_trace hv] at h8
                    simp at h8
                  · simp at h8

/-- C6 (amended): a non-object environment blob is reported as the
configuration error "Non object value passed as environment variable …"
(never silently coerced into an environment) and the error stops the
call before any container is created — but only at the
container-configuration step: the earlier build-argument pass silently
treats the same blob as an empty mapping, so the build and the other
pre-creation engine steps have already run (see the counterexample). -/
theorem nonobject_environs_is_error_not_coerced (owner project cn csrc : String)
    (w : World) (v : JValue) (hv : v.as_object = none)
    (hq2 : w.queryEnvirons2 = .ok v) :
    build_arg_pairs v = []
    ∧ environment_strings_lenient v = []
    ∧ environment_strings_strict cn v
        = .failed ("Non object value passed as environment variable " ++ cn)
    ∧ (∀ dom net, create_and_start cn dom v net w
        = (.failed ("Non object value passed as environment variable " ++ cn), []))
    ∧ (build_docker owner project cn csrc w).2.all
        (fun e => !e.isCreateContainer) = true := by
  refine ⟨?_, ?_, ?_, ?_, ?_⟩
  · unfold build_arg_pairs
    rw [hv]
  · unfold environment_strings_lenient
    rw [hv]
  · unfold environment_strings_strict
    rw [hv]
  · intro dom net
    exact create_and_start_nonobject_empty_trace hv
  · exact nonobject_no_create_container owner project cn csrc w v hv hq2

/-- C6 witness: the stored blob is the JSON number 5. -/
theorem nonobject_environs_is_error_not_coerced_witness :
    build_arg_pairs (.jnum 5) = []
    ∧ environment_strings_lenient (.jnum 5) = []
    ∧ environment_strings_strict "c" (.jnum 5)
        = .failed ("Non object value passed as environment variable " ++ "c")
    ∧ (∀ dom net, create_and_start "c" dom (.jnum 5) net w_nonobject
        = (.failed ("Non object value passed as environment variable " ++ "c"), []))
    ∧ (build_docker "o" "p" "c" "s" w_nonobject).2.all
        (fun e => !e.isCreateContainer) = true :=
  nonobject_environs_is_error_not_coerced "o" "p" "c" "s" w_nonobject (.jnum 5) rfl rfl

/-- C6 counterexample: with the blob 5 stored, the deployment does end
in the configuration error, but its trace shows the build subprocess,
the post-build image check, the container listing and the network
listing all ran first — the error is not surfaced before engine
mutation, refuting that part of the claim. -/
theorem nonobject_environs_error_surfaces_after_build :
    (build_docker "o" "p" "c" "s" w_nonobject).1
        = .failed ("Non object value passed as environment variable " ++ "c")
    ∧ (build_docker "o" "p" "c" "s" w_nonobject).2 =
        [.listImages (image_name "c"), .queryEnvirons "o" "p",
         .spawnBuild (custom_build_args "c" "s" (.jnum 5)),
         .listImages (image_name "c"), .listContainers "^c$",
         .listNetworks network_name, .queryEnvirons "o" "p"]
    ∧ .spawnBuild (custom_build_args "c" "s" (.jnum 5)) ∈
        (build_docker "o" "p" "c" "s" w_nonobject).2 := by
  refine ⟨by decide, by decide, by decide⟩

theorem string_foldl_append (l : List String) (a : String) :
    l.foldl (fun r s => r ++ s) a = a ++ l.foldl (fun r s => r ++ s) "" := by
  induction l generalizing a with
  | nil => simp
  | cons x xs ih =>
    simp only [List.foldl_cons]
    rw [ih (a ++ x), ih ("" ++ x)]
    have h0 : ("" : String) ++ x = x := rfl
    rw [h0, String.append_assoc]

theorem foldl_env_append (l : List String) (acc : String) :
    l.foldl (fun acc env_var => acc ++ ("ENV " ++ env_var ++ "\n")) acc
      = acc ++ String.join (l.map (fun e => "ENV " ++ e ++ "\n")) := by
  induction l generalizing acc with
  | nil =>
    simp [String.join]
  | cons x xs ih =>
    simp only [List.foldl_cons, List.map_cons, String.join]
    rw [ih]
    rw [string_foldl_append (List.map (fun e => "ENV " ++ e ++ "\n") xs)
      ("" ++ ("ENV " ++ x ++ "\n"))]
    have h0 : ("" : String) ++ ("ENV " ++ x ++ "\n") = "ENV " ++ x ++ "\n" := rfl
    rw [h0, String.append_assoc]
    simp [String.join]

/-- C7: `DjangoDockerfile::generate` is the fixed multi-stage template,
then — for a non-empty environment — the environment section with
exactly one `ENV entry` line per entry in the given order, then the
fixed production entrypoint; the output depends on nothing but the
environment list. -/
theorem generate_is_template_env_lines_entrypoint (env : List String) :
    DjangoDockerfile.generate env =
      DjangoDockerfile.base_template ++
        ((if env.isEmpty then "" else
            DjangoDockerfile.env_section_header ++
              String.join (env.map (fun e => "ENV " ++ e ++ "\n"))) ++
          DjangoDockerfile.production_footer) := by
  unfold DjangoDockerfile.generate
  by_cases h : env.isEmpty
  · simp [h]
  · simp only [h, Bool.not_false, if_true, if_false]
    rw [foldl_env_append]
    simp [String.append_assoc]

/-- C8 (amended): no run of `build_docker` — either build path, any
outcome — performs a temporary-file operation: the generated Dockerfile
is never materialized to the filesystem, so trivially no temporary file
outlives the call. -/
theorem build_docker_no_temp_files (owner project cn csrc : String) (w : World) :
    (build_docker owner project cn csrc w).2.all (fun e => !e.isTempFile) = true := by
  rw [List.all_eq_true]
  intro e he
  suffices h : e.isTempFile = false by simp [h]
  unfold build_docker at he
  split at he
  · simp at he
  · rcases mem_andThen he with h1 | ⟨a, _, h1⟩
    · rcases mem_prepare_images_trace h1 with h | h | h <;> subst h <;> rfl
    · rcases mem_andThen h1 with h2 | ⟨v1, _, h2⟩
      · have h := mem_fetch_environs_trace h2; subst h; rfl
      · rcases mem_andThen h2 with h3 | ⟨bl, _, h3⟩
        · rcases mem_run_build_trace h3 with ⟨args, h⟩ | ⟨o, h⟩ <;> subst h <;> rfl
        · rcases mem_andThen h3 with h4 | ⟨u, _, h4⟩
          · have h := mem_post_build_check_trace h4; subst h; rfl
          · rcases mem_andThen h4 with h5 | ⟨u2, _, h5⟩
            · rcases mem_replace_container_trace h5 with h | h | ⟨i, h⟩ | h <;>
                subst h <;> rfl
            · rcases mem_andThen h5 with h6 | ⟨net, _, h6⟩
              · rcases mem_ensure_network_trace h6 with h | h <;> subst h <;> rfl
              · rcases mem_andThen h6 with h7 | ⟨v2, _, h7⟩
                · have h := mem_fetch_environs_trace h7; subst h; rfl
                · rcases mem_andThen h7 with h8 | ⟨ip, _, h8⟩
                  · rcases mem_create_and_start_trace h8 with
                      ⟨cfg, h⟩ | h | h | ⟨i, h⟩ | h <;> subst h <;> rfl
                  · simp at h8

/-- C8 counterexample: a successful generated-path run; its full trace
goes straight from the environment query to the engine build API — no
temporary file is ever written, refuting "materialized to a
uniquely-named temporary file location". -/
theorem generated_path_materializes_no_temp_file :
    (build_docker "o" "p" "c" "s" w_generated_ok).1
        = .ok { ip := "10.0.0.5", port := 80, build_log := "built fine\n" }
    ∧ (build_docker "o" "p" "c" "s" w_generated_ok).2 =
        [.listImages (image_name "c"), .queryEnvirons "o" "p",
         .buildImageApi (generated_build_options "c"), .listImages (image_name "c"),
         .listContainers "^c$", .listNetworks network_name, .queryEnvirons "o" "p",
         .createContainer "c" (container_config "c" "localhost" []),
         .connectNetwork network_name "c", .startContainer "c",
         .inspectNetwork "netid", .disconnectNetwork "bridge" "c"]
    ∧ (build_docker "o" "p" "c" "s" w_generated_ok).2.all
        (fun e => !e.isTempFile) = true := by
  refine ⟨by decide, by decide, by decide⟩

/-- C9: for the stored object with the non-string entry DEBUG ↦ true,
the strict container-environment flattening panics (`as_str().unwrap()`)
while the earlier build-argument pass substitutes the empty string for
the same entry; a full deployment against that blob panics before any
container creation — the operation is not total on such inputs. -/
theorem nonstring_env_value_panics_at_container_env :
    environment_strings_strict "c" nonstring_environs = .panicked
    ∧ build_arg_pairs nonstring_environs = ["--build-arg", "DEBUG="]
    ∧ environment_strings_lenient nonstring_environs = ["DEBUG="]
    ∧ (build_docker "o" "p" "c" "s" w_nonstring_env).1 = .panicked
    ∧ (build_docker "o" "p" "c" "s" w_nonstring_env).2.all
        (fun e => !e.isCreateContainer) = true := by
  refine ⟨by decide, by decide, by decide, by decide, by decide⟩

/-- C10: a post-start inspection whose containers map lacks the new
container's id makes the call panic (the `unwrap` on the lookup) rather
than return an address error — both for an empty map and for an absent
map — and the address-error outcome is reachable only when the entry
exists and both of its address fields are absent or empty. -/
theorem missing_network_entry_panics_not_addr_error :
    resolve_address "c" (some []) "cid123" = .panicked
    ∧ resolve_address "c" none "cid123" = .panicked
    ∧ (build_docker "o" "p" "c" "s" w_missing_entry).1 = .panicked
    ∧ (∀ cn co cid m, resolve_address cn co cid = .addrError m →
        ∃ entry, lookup_network_container co cid = some entry
          ∧ resolve_ip entry.ipv6_address entry.ipv4_address = none
          ∧ m = "No ip address found for container " ++ cn) := by
  refine ⟨by decide, by decide, by decide, ?_⟩
  intro cn co cid m h
  unfold resolve_address at h
  split at h
  · simp at h
  · rename_i entry hlk
    split at h
    · simp at h
    · rename_i hre
      refine ⟨entry, hlk, hre, ?_⟩
      cases h
      rfl

/-- Sanity: in the baseline all-ok world the deployment returns the
normalized address 10.0.0.5, port 80 and the captured build log. -/
theorem build_docker_all_ok_run :
    build_docker "o" "p" "c" "s" all_ok_world =
      (.ok { ip := "10.0.0.5", port := 80, build_log := "step log" },
       [.listImages (image_name "c"), .queryEnvirons "o" "p",
        .spawnBuild (custom_build_args "c" "s" (.jobj [])),
        .listImages (image_name "c"), .listContainers "^c$",
        .listNetworks network_name, .queryEnvirons "o" "p",
        .createContainer "c" (container_config "c" "localhost" []),
        .connectNetwork network_name "c", .startContainer "c",
        .inspectNetwork "netid", .disconnectNetwork "bridge" "c"]) := by
  decide
